import Mathlib

/-!
Shallow embedding of the cafe-sales data-cleaning pipeline
(`common.py`, `functional.py`, `imperative.py`).

Modelling conventions: Python floats are modelled as exact rationals and
Python ints as integers; `round(x, 2)` is modelled as round-half-to-even
at two decimal places; exceptions are modelled with `Except String`.
The Python builtins `int(str)`, `float(str)` and
`datetime.strptime(value, "%Y-%m-%d")` are modelled by `pyInt`,
`pyFloat` and `strptimeYmd` (whitespace, underscore, infinity and NaN
forms of the builtin conversions are not modelled; no claim depends on
them).  `statistics.median` / `mean` / `variance` / `mode` are modelled
by `pyMedian` / `pyMeanQ` / `pyVarianceQ` / `pyMode` following the
semantics of the `statistics` module on Python 3.10 or newer, the
versions on which the source (which uses `match` statements) runs:
`mode` returns the first-encountered most frequent value and raises
only on empty input.
-/

/-- Sentinel test: the three dirty markers checked throughout the code. -/
def isSentinel (v : String) : Bool :=
  v == "ERROR" || v == "UNKNOWN" || v == ""

/-- Numeric value of a list of decimal digit characters. -/
def digitsToNat (ds : List Char) : Nat :=
  ds.foldl (fun a c => a * 10 + (c.toNat - 48)) 0

/-- Model of the Python builtin `int` on strings: optional sign then digits. -/
def pyIntChars : List Char → Option Int
  | [] => none
  | '+' :: rest =>
    if rest ≠ [] ∧ rest.all Char.isDigit then some (digitsToNat rest) else none
  | '-' :: rest =>
    if rest ≠ [] ∧ rest.all Char.isDigit then some (-(digitsToNat rest : Int)) else none
  | cs =>
    if cs.all Char.isDigit then some (digitsToNat cs) else none

def pyInt (s : String) : Option Int := pyIntChars s.data

/-- Exponent suffix of a Python float literal. -/
def applyExp (m : ℚ) (r : List Char) : Option ℚ :=
  let (eneg, r1) : Bool × List Char :=
    match r with
    | '+' :: t => (false, t)
    | '-' :: t => (true, t)
    | t => (false, t)
  if r1 ≠ [] ∧ r1.all Char.isDigit then
    let k := digitsToNat r1
    some (if eneg then m / (10 : ℚ) ^ k else m * (10 : ℚ) ^ k)
  else none

/-- Model of the Python builtin `float` on strings: optional sign, integer and
fractional digit parts (at least one digit overall), optional exponent. -/
def pyFloatChars (cs : List Char) : Option ℚ :=
  let (sgn, cs1) : ℚ × List Char :=
    match cs with
    | '+' :: r => (1, r)
    | '-' :: r => (-1, r)
    | r => (1, r)
  let ip := cs1.takeWhile Char.isDigit
  let cs2 := cs1.dropWhile Char.isDigit
  let (fp, cs3) : List Char × List Char :=
    match cs2 with
    | '.' :: r => (r.takeWhile Char.isDigit, r.dropWhile Char.isDigit)
    | r => ([], r)
  let mant : ℚ := (digitsToNat ip : ℚ) + (digitsToNat fp : ℚ) / ((10 : ℚ) ^ fp.length)
  let withExp : Option ℚ :=
    match cs3 with
    | [] => some mant
    | 'e' :: r => applyExp mant r
    | 'E' :: r => applyExp mant r
    | _ => none
  if ip ≠ [] ∨ fp ≠ [] then withExp.map (fun m => sgn * m) else none

def pyFloat (s : String) : Option ℚ := pyFloatChars s.data

/-- Round half to even to an integer, as the Python builtin `round`. -/
def roundHalfEven (q : ℚ) : Int :=
  let f := q.floor
  let frac : ℚ := q - (f : ℚ)
  if frac < 1 / 2 then f
  else if 1 / 2 < frac then f + 1
  else if f % 2 = 0 then f else f + 1

/-- Model of `round(x, DECIMAL_PLACES)` with `DECIMAL_PLACES = 2`. -/
def round2 (q : ℚ) : ℚ := ((roundHalfEven (q * 100) : Int) : ℚ) / 100

/-- Split a character list at every dash. -/
def splitDash : List Char → List (List Char)
  | [] => [[]]
  | c :: rest =>
    if c = '-' then [] :: splitDash rest
    else
      match splitDash rest with
      | [] => [[c]]
      | p :: ps => (c :: p) :: ps

def isLeapYear (y : Nat) : Bool :=
  (y % 4 == 0 && y % 100 != 0) || y % 400 == 0

def daysInMonth (y m : Nat) : Nat :=
  if m = 2 then (if isLeapYear y then 29 else 28)
  else if m = 4 ∨ m = 6 ∨ m = 9 ∨ m = 11 then 30
  else 31

/-- Model of `datetime.strptime(value, "%Y-%m-%d")` as used by `parse_date`:
exactly four year digits, one or two month and day digits, dash separators,
no surplus characters, and a valid calendar date (CPython accepts one-digit
months and days for this format and validates ranges via `datetime`). -/
def strptimeYmd (s : String) : Option (Nat × Nat × Nat) :=
  match splitDash s.data with
  | [ys, ms, ds] =>
    if ys.length = 4 ∧ ys.all Char.isDigit
        ∧ 1 ≤ ms.length ∧ ms.length ≤ 2 ∧ ms.all Char.isDigit
        ∧ 1 ≤ ds.length ∧ ds.length ≤ 2 ∧ ds.all Char.isDigit then
      let y := digitsToNat ys
      let m := digitsToNat ms
      let d := digitsToNat ds
      if 1 ≤ y ∧ 1 ≤ m ∧ m ≤ 12 ∧ 1 ≤ d ∧ d ≤ daysInMonth y m then some (y, m, d)
      else none
    else none
  | _ => none

/-- Dynamically typed numeric value (a Python int or float). -/
inductive Value where
  | intV : Int → Value
  | floatV : ℚ → Value
deriving DecidableEq

def Value.toRat : Value → ℚ
  | .intV n => (n : ℚ)
  | .floatV q => q

/-- Whether a dynamic value is a Python int (`isinstance(v, int)`). -/
def Value.isInt : Value → Bool
  | .intV _ => true
  | .floatV _ => false

/-- Raw CSV row: the seven fixed columns, all as text. -/
structure RawRow where
  item : String
  quantity : String
  pricePerUnit : String
  totalSpent : String
  paymentMethod : String
  location : String
  transactionDate : String
deriving DecidableEq

inductive Col where
  | item
  | quantity
  | pricePerUnit
  | totalSpent
  | paymentMethod
  | location
  | transactionDate
deriving DecidableEq

/-- Column lookup by name, `row[column_name]`. -/
def RawRow.get (r : RawRow) : Col → String
  | .item => r.item
  | .quantity => r.quantity
  | .pricePerUnit => r.pricePerUnit
  | .totalSpent => r.totalSpent
  | .paymentMethod => r.paymentMethod
  | .location => r.location
  | .transactionDate => r.transactionDate

def RawRow.setQuantity (r : RawRow) (v : String) : RawRow :=
  ⟨r.item, v, r.pricePerUnit, r.totalSpent, r.paymentMethod, r.location, r.transactionDate⟩

def RawRow.setPricePerUnit (r : RawRow) (v : String) : RawRow :=
  ⟨r.item, r.quantity, v, r.totalSpent, r.paymentMethod, r.location, r.transactionDate⟩

/-- Cleaned row as built by `clean_row`: the seven columns in their parsed
forms plus the derived Corrected Total. -/
structure CleanedRow where
  item : String
  quantity : Value
  pricePerUnit : ℚ
  totalSpent : ℚ
  paymentMethod : String
  location : String
  transactionDate : String
  correctedTotal : ℚ
deriving DecidableEq

/-- The `defults` dictionary of computed imputation defaults. -/
structure Defaults where
  quantityMedian : Value
  pricePerUnitMean : ℚ
  itemMode : String
  paymentMethodMode : String
  locationMode : String
  transactionDateMode : String
deriving DecidableEq

/-- Model of `parse_float` (common.py and functional.py are identical). -/
def parse_float (value : String) (default : ℚ) : Except String ℚ :=
  if isSentinel value then .ok (round2 default)
  else
    match pyFloat value with
    | some q => .ok (round2 q)
    | none => .error ("Cannot convert " ++ value ++ " to float.")

/-- Model of `parse_int`; the default keeps its dynamic type. -/
def parse_int (value : String) (default : Value) : Except String Value :=
  if isSentinel value then .ok default
  else
    match pyInt value with
    | some n => .ok (.intV n)
    | none => .error ("Cannot convert " ++ value ++ " to int.")

/-- Model of `parse_date`: sentinels take the default unvalidated, other
values are validated by strptime and returned unchanged. -/
def parse_date (value : String) (default : String) : Except String String :=
  if isSentinel value then .ok default
  else
    match strptimeYmd value with
    | some _ => .ok value
    | none => .error ("Cannot parse date from " ++ value ++ ".")

/-- Model of `parse_string`. -/
def parse_string (value : String) (default : String) : String :=
  if isSentinel value then default else value

def insertByRat {α : Type} (key : α → ℚ) (x : α) : List α → List α
  | [] => [x]
  | y :: ys => if key y ≤ key x then y :: insertByRat key x ys else x :: y :: ys

/-- Stable sort by a rational key (the semantics of Python `sorted`). -/
def sortByRat {α : Type} (key : α → ℚ) (l : List α) : List α :=
  l.foldl (fun acc x => insertByRat key x acc) []

/-- Model of `statistics.median`: odd length returns the middle element with
its dynamic type preserved, even length returns the float average of the two
middle elements, empty input raises. -/
def pyMedian (l : List Value) : Option Value :=
  match l with
  | [] => none
  | _ :: _ =>
    let s := sortByRat Value.toRat l
    let n := l.length
    if n % 2 = 1 then some (s.getD (n / 2) (.intV 0))
    else
      some (.floatV (((s.getD (n / 2 - 1) (.intV 0)).toRat
        + (s.getD (n / 2) (.intV 0)).toRat) / 2))

/-- Model of `statistics.median` restricted to float data. -/
def pyMedianQ (l : List ℚ) : Option ℚ :=
  match l with
  | [] => none
  | _ :: _ =>
    let s := sortByRat id l
    let n := l.length
    if n % 2 = 1 then some (s.getD (n / 2) 0)
    else some ((s.getD (n / 2 - 1) 0 + s.getD (n / 2) 0) / 2)

/-- Model of `statistics.mean` on float data (raises on empty input). -/
def pyMeanQ (l : List ℚ) : Option ℚ :=
  match l with
  | [] => none
  | _ :: _ => some (l.sum / (l.length : ℚ))

/-- Model of `statistics.variance` (sample variance, needs two data points). -/
def pyVarianceQ (l : List ℚ) : Option ℚ :=
  if l.length < 2 then none
  else
    let m := l.sum / (l.length : ℚ)
    some ((l.map (fun x => (x - m) ^ 2)).sum / ((l.length : ℚ) - 1))

/-- Model of `statistics.mode` on Python 3.8 or newer: the first-encountered
most frequent value; raises only on empty input. -/
def pyMode {α : Type} [DecidableEq α] (l : List α) : Option α :=
  l.foldl
    (fun acc v =>
      match acc with
      | none => some v
      | some m => if l.count m < l.count v then some v else acc)
    none

/-- Recursive non-sentinel column extraction (`get_column` in functional.py). -/
def get_column : List RawRow → Col → List String → List String
  | [], _, accumulated => accumulated
  | head :: tail, c, accumulated =>
    if isSentinel (head.get c) then get_column tail c accumulated
    else get_column tail c (accumulated ++ [head.get c])

def exceptOfOption {α : Type} (o : Option α) (msg : String) : Except String α :=
  match o with
  | some a => .ok a
  | none => .error msg

/-- Sequential elementwise map that propagates the first raised exception,
the semantics of applying a fallible function under Python `list(map(f, l))`. -/
def mapExcept {α β : Type} (f : α → Except String β) : List α → Except String (List β)
  | [] => .ok []
  | x :: xs => do
    let y ← f x
    let ys ← mapExcept f xs
    return y :: ys

/-- Default computation phase of `main` in functional.py.  Note that it
applies the fail-fast `parse_int` / `parse_float` to every collected value
and calls `statistics.median` / `mean` / `mode` without any emptiness
guard, so it can raise. -/
def functional_defaults (raw : List RawRow) : Except String Defaults := do
  let qVals ← mapExcept (fun x => parse_int x (.intV 0)) (get_column raw .quantity [])
  let qMedian ← exceptOfOption (pyMedian qVals)
    "StatisticsError: no median for empty data"
  let pVals ← mapExcept (fun x => parse_float x 0) (get_column raw .pricePerUnit [])
  let pMean ← exceptOfOption (pyMeanQ pVals)
    "StatisticsError: mean requires at least one data point"
  let iMode ← exceptOfOption (pyMode (get_column raw .item []))
    "StatisticsError: no mode for empty data"
  let pmMode ← exceptOfOption (pyMode (get_column raw .paymentMethod []))
    "StatisticsError: no mode for empty data"
  let lMode ← exceptOfOption (pyMode (get_column raw .location []))
    "StatisticsError: no mode for empty data"
  let tMode ← exceptOfOption (pyMode (get_column raw .transactionDate []))
    "StatisticsError: no mode for empty data"
  return ⟨qMedian, pMean, iMode, pmMode, lMode, tMode⟩

/-- Row cleaning (`clean_row` in functional.py; the loop body of
`clean_data_imperative` is character-for-character the same computation). -/
def clean_row (row : RawRow) (defults : Defaults) : Except String CleanedRow := do
  let quantity ← parse_int row.quantity defults.quantityMedian
  let price_per_unit ← parse_float row.pricePerUnit defults.pricePerUnitMean
  let corrected_total : ℚ := quantity.toRat * price_per_unit
  let item := parse_string row.item defults.itemMode
  let total_spent ← parse_float row.totalSpent 0
  let payment_method := parse_string row.paymentMethod defults.paymentMethodMode
  let location := parse_string row.location defults.locationMode
  let transaction_date ← parse_date row.transactionDate defults.transactionDateMode
  return ⟨item, quantity, price_per_unit, total_spent, payment_method, location,
    transaction_date, round2 corrected_total⟩

/-- Imperative cleaning loop building the output list by appends. -/
def clean_data_loop (defults : Defaults) :
    List RawRow → List CleanedRow → Except String (List CleanedRow)
  | [], cleaned => .ok cleaned
  | row :: rest, cleaned => do
    let c ← clean_row row defults
    clean_data_loop defults rest (cleaned ++ [c])

def clean_data_imperative (raw_data : List RawRow) (defults : Defaults) :
    Except String (List CleanedRow) :=
  clean_data_loop defults raw_data []

/-- The six value lists collected by the loop in `compute_column_stats`. -/
structure Collected where
  quantities : List Int
  pricesPerUnit : List ℚ
  items : List String
  paymentMethods : List String
  locations : List String
  transactionDates : List String
deriving DecidableEq

/-- Loop body of `compute_column_stats`: appends each non-sentinel value,
silently skipping Quantity / Price Per Unit values that fail conversion. -/
def collectStep (acc : Collected) (row : RawRow) : Collected :=
  let qs :=
    if isSentinel row.quantity then acc.quantities
    else
      match pyInt row.quantity with
      | some n => acc.quantities ++ [n]
      | none => acc.quantities
  let ps :=
    if isSentinel row.pricePerUnit then acc.pricesPerUnit
    else
      match pyFloat row.pricePerUnit with
      | some q => acc.pricesPerUnit ++ [q]
      | none => acc.pricesPerUnit
  let its := if isSentinel row.item then acc.items else acc.items ++ [row.item]
  let pms :=
    if isSentinel row.paymentMethod then acc.paymentMethods
    else acc.paymentMethods ++ [row.paymentMethod]
  let locs :=
    if isSentinel row.location then acc.locations
    else acc.locations ++ [row.location]
  let tds :=
    if isSentinel row.transactionDate then acc.transactionDates
    else acc.transactionDates ++ [row.transactionDate]
  ⟨qs, ps, its, pms, locs, tds⟩

def collectColumns (data : List RawRow) : Collected :=
  data.foldl collectStep ⟨[], [], [], [], [], []⟩

/-- Imperative default estimator (`compute_column_stats`), with its explicit
emptiness fallbacks. -/
def compute_column_stats (data : List RawRow) : Defaults :=
  let c := collectColumns data
  ⟨(if c.quantities.isEmpty then .intV 0
      else (pyMedian (c.quantities.map Value.intV)).getD (.intV 0)),
    (if c.pricesPerUnit.isEmpty then 0 else (pyMeanQ c.pricesPerUnit).getD 0),
    (if c.items.isEmpty then "UNKNOWN" else (pyMode c.items).getD "UNKNOWN"),
    (if c.paymentMethods.isEmpty then "UNKNOWN"
      else (pyMode c.paymentMethods).getD "UNKNOWN"),
    (if c.locations.isEmpty then "UNKNOWN" else (pyMode c.locations).getD "UNKNOWN"),
    (if c.transactionDates.isEmpty then "1970-01-01"
      else (pyMode c.transactionDates).getD "1970-01-01")⟩

/-- The functional pipeline from raw rows to cleaned rows (`main`). -/
def functional_pipeline (raw : List RawRow) : Except String (List CleanedRow) := do
  let defults ← functional_defaults raw
  mapExcept (fun row => clean_row row defults) raw

/-- The imperative pipeline from raw rows to cleaned rows (`main_imperative`). -/
def imperative_pipeline (raw : List RawRow) : Except String (List CleanedRow) :=
  clean_data_imperative raw (compute_column_stats raw)

inductive NumericReport where
  | stats : ℚ → ℚ → ℚ → NumericReport
  | noData : NumericReport
deriving DecidableEq

inductive CategoricalReport where
  | modeIs : String → CategoricalReport
  | multipleFound : CategoricalReport
  | noData : CategoricalReport
deriving DecidableEq

/-- Numeric report of common.py / functional.py: mean, median and variance
with no guard around the statistics calls. -/
def print_numeric_analysis (values : List ℚ) : Except String NumericReport := do
  let m ← exceptOfOption (pyMeanQ values)
    "StatisticsError: mean requires at least one data point"
  let md ← exceptOfOption (pyMedianQ values)
    "StatisticsError: no median for empty data"
  let v ← exceptOfOption (pyVarianceQ values)
    "StatisticsError: variance requires at least two data points"
  return .stats m md v

/-- Numeric report of imperative.py: guards only the empty case. -/
def print_numeric_analysis_imperative (values : List ℚ) :
    Except String NumericReport :=
  if values.isEmpty then .ok .noData
  else do
    let m ← exceptOfOption (pyMeanQ values)
      "StatisticsError: mean requires at least one data point"
    let md ← exceptOfOption (pyMedianQ values)
      "StatisticsError: no median for empty data"
    let v ← exceptOfOption (pyVarianceQ values)
      "StatisticsError: variance requires at least two data points"
    return .stats m md v

/-- Categorical report of common.py / functional.py: mode inside a handler
that prints "Multiple found" on a StatisticsError. -/
def print_categorical_analysis (values : List String) : CategoricalReport :=
  match pyMode values with
  | some m => .modeIs m
  | none => .multipleFound

/-- Categorical report of imperative.py: an emptiness guard printing
"No data found", then mode inside the same handler. -/
def print_categorical_analysis_imperative (values : List String) :
    CategoricalReport :=
  if values.isEmpty then .noData
  else
    match pyMode values with
    | some m => .modeIs m
    | none => .multipleFound

def wRow : RawRow := ⟨"Coffee", "2", "3.5", "7.0", "Cash", "NYC", "2023-05-01"⟩

def wDefaults : Defaults := ⟨.intV 2, 7 / 2, "Coffee", "Cash", "NYC", "2023-05-01"⟩

def wCleaned : CleanedRow :=
  ⟨"Coffee", .intV 2, 7 / 2, 7, "Cash", "NYC", "2023-05-01", 7⟩

/-- A row whose every field is a sentinel. -/
def sentRow : RawRow := ⟨"UNKNOWN", "ERROR", "", "UNKNOWN", "ERROR", "", "UNKNOWN"⟩

/-- A row with non-sentinel Quantity text that fails integer conversion. -/
def badQtyRow : RawRow := ⟨"Coffee", "abc", "1.0", "1.0", "Cash", "NYC", "2023-01-01"⟩

def qRow1 : RawRow := ⟨"Coffee", "2", "1.0", "1.0", "Cash", "NYC", "2023-01-01"⟩

def qRow2 : RawRow := ⟨"Coffee", "3", "1.0", "1.0", "Cash", "NYC", "2023-01-01"⟩

def qRow3 : RawRow := ⟨"Coffee", "UNKNOWN", "1.0", "1.0", "Cash", "NYC", "2023-01-01"⟩

/-- A row whose Transaction Date is malformed but not a sentinel. -/
def badDateRow : RawRow := ⟨"Coffee", "2", "1.0", "1.0", "Cash", "NYC", "not-a-date"⟩

/-- A row whose Transaction Date is a sentinel. -/
def sentDateRow : RawRow := ⟨"Coffee", "2", "1.0", "1.0", "Cash", "NYC", "UNKNOWN"⟩

deriving instance DecidableEq for Except

/-- Reduction of bind on an ok value in the Except monad. -/
@[simp] theorem exceptBindOk {ε α β : Type} (a : α) (f : α → Except ε β) :
    (Except.ok a >>= f) = f a := rfl

/-- Reduction of bind on an error in the Except monad. -/
@[simp] theorem exceptBindError {ε α β : Type} (e : ε) (f : α → Except ε β) :
    ((Except.error e : Except ε α) >>= f) = Except.error e := rfl

/-- Reduction of pure in the Except monad. -/
@[simp] theorem exceptPure {ε α : Type} (a : α) :
    (pure a : Except ε α) = Except.ok a := rfl

/-- Reduction of map on an ok value in the Except monad. -/
@[simp] theorem exceptMapOk {ε α β : Type} (f : α → β) (a : α) :
    Except.map f (Except.ok a : Except ε α) = Except.ok (f a) := rfl

/-- Reduction of map on an error in the Except monad. -/
@[simp] theorem exceptMapError {ε α β : Type} (f : α → β) (e : ε) :
    Except.map f (Except.error e : Except ε α) = Except.error e := rfl

/-- Specification form of the non-sentinel values of a column, in order. -/
def colSpec (c : Col) (data : List RawRow) : List String :=
  (data.map (fun r => r.get c)).filter (fun v => !(isSentinel v))

/-- The integers the imperative estimator collects for Quantity. -/
def quantitiesSpec (data : List RawRow) : List Int :=
  (colSpec .quantity data).filterMap pyInt

/-- The decimals the imperative estimator collects for Price Per Unit. -/
def pricesSpec (data : List RawRow) : List ℚ :=
  (colSpec .pricePerUnit data).filterMap pyFloat

/-- The recursive `get_column` computes the in-order non-sentinel values. -/
theorem get_column_eq (data : List RawRow) (c : Col) :
    ∀ accumulated, get_column data c accumulated = accumulated ++ colSpec c data := by
  induction data with
  | nil => intro accumulated; simp [get_column, colSpec]
  | cons head tail ih =>
    intro accumulated
    by_cases hs : isSentinel (head.get c)
    · simp [get_column, hs, colSpec, ih]
    · simp [get_column, hs, colSpec, ih]

/-- The estimator loop collects exactly the specification lists: non-sentinel
values per column, with unparseable Quantity / Price Per Unit values skipped. -/
theorem collect_foldl (data : List RawRow) :
    ∀ acc : Collected, data.foldl collectStep acc =
      ⟨acc.quantities ++ quantitiesSpec data,
       acc.pricesPerUnit ++ pricesSpec data,
       acc.items ++ colSpec .item data,
       acc.paymentMethods ++ colSpec .paymentMethod data,
       acc.locations ++ colSpec .location data,
       acc.transactionDates ++ colSpec .transactionDate data⟩ := by
  induction data with
  | nil =>
    intro acc
    cases acc
    simp [quantitiesSpec, pricesSpec, colSpec]
  | cons head tail ih =>
    intro acc
    rw [List.foldl_cons, ih]
    simp only [Collected.mk.injEq]
    refine ⟨?_, ?_, ?_, ?_, ?_, ?_⟩
    · by_cases hs : isSentinel head.quantity
      · cases hq : pyInt head.quantity <;>
          simp [collectStep, quantitiesSpec, colSpec, RawRow.get, hs, hq]
      · cases hq : pyInt head.quantity <;>
          simp [collectStep, quantitiesSpec, colSpec, RawRow.get, hs, hq,
            List.filterMap_cons]
    · by_cases hs : isSentinel head.pricePerUnit
      · cases hq : pyFloat head.pricePerUnit <;>
          simp [collectStep, pricesSpec, colSpec, RawRow.get, hs, hq]
      · cases hq : pyFloat head.pricePerUnit <;>
          simp [collectStep, pricesSpec, colSpec, RawRow.get, hs, hq,
            List.filterMap_cons]
    · by_cases hs : isSentinel head.item <;>
        simp [collectStep, colSpec, RawRow.get, hs]
    · by_cases hs : isSentinel head.paymentMethod <;>
        simp [collectStep, colSpec, RawRow.get, hs]
    · by_cases hs : isSentinel head.location <;>
        simp [collectStep, colSpec, RawRow.get, hs]
    · by_cases hs : isSentinel head.transactionDate <;>
        simp [collectStep, colSpec, RawRow.get, hs]

/-- The collected lists of the imperative estimator in specification form. -/
theorem collectColumns_eq (data : List RawRow) :
    collectColumns data =
      ⟨quantitiesSpec data, pricesSpec data, colSpec .item data,
       colSpec .paymentMethod data, colSpec .location data,
       colSpec .transactionDate data⟩ := by
  rw [collectColumns, collect_foldl]
  simp

/-- The imperative append loop is the elementwise map of `clean_row`. -/
theorem clean_data_loop_eq (defults : Defaults) (raw : List RawRow) :
    ∀ acc : List CleanedRow,
      clean_data_loop defults raw acc
      = Except.map (fun l => acc ++ l)
          (mapExcept (fun row => clean_row row defults) raw) := by
  induction raw with
  | nil => intro acc; simp [clean_data_loop, mapExcept]
  | cons head tail ih =>
    intro acc
    rw [clean_data_loop, mapExcept]
    cases h : clean_row head defults with
    | error e => simp [h]
    | ok c =>
      simp only [exceptBindOk]
      rw [ih (acc ++ [c])]
      cases hm : mapExcept (fun row => clean_row row defults) tail with
      | error e => simp [h, hm]
      | ok cs => simp [h, hm]

/-- The two styles of applying the row cleaner coincide. -/
theorem clean_data_eq_mapExcept (raw : List RawRow) (defults : Defaults) :
    clean_data_imperative raw defults
      = mapExcept (fun row => clean_row row defults) raw := by
  rw [clean_data_imperative, clean_data_loop_eq]
  cases h : mapExcept (fun row => clean_row row defults) raw <;> simp [h]

/-- A successful elementwise map has one output per input, in order. -/
theorem mapExcept_ok_spec {α β : Type} (f : α → Except String β) :
    ∀ (l : List α) (out : List β), mapExcept f l = .ok out →
      out.length = l.length ∧
      ∀ (i : Nat) (hi : i < l.length) (hi2 : i < out.length),
        f (l.get ⟨i, hi⟩) = .ok (out.get ⟨i, hi2⟩) := by
  intro l
  induction l with
  | nil =>
    intro out h
    simp only [mapExcept, Except.ok.injEq] at h
    subst h
    exact ⟨rfl, by intro i hi; simp at hi⟩
  | cons head tail ih =>
    intro out h
    rw [mapExcept] at h
    cases hf : f head with
    | error e => rw [hf] at h; simp at h
    | ok b =>
      rw [hf] at h
      cases hm : mapExcept f tail with
      | error e => rw [hm] at h; simp at h
      | ok bs =>
        rw [hm] at h
        simp only [exceptBindOk, exceptPure, Except.ok.injEq] at h
        subst h
        obtain ⟨hlen, hget⟩ := ih bs hm
        refine ⟨by simp [hlen], ?_⟩
        intro i hi hi2
        cases i with
        | zero => simpa using hf
        | succ n =>
          simp only [List.get_cons_succ]
          exact hget n (by simpa using hi) (by simpa using hi2)

/-- An elementwise map over a list containing a failing element fails. -/
theorem mapExcept_error_of_mem {α β : Type} (f : α → Except String β) :
    ∀ (l : List α) (x : α), x ∈ l → (∃ e, f x = .error e) →
      ∃ e2, mapExcept f l = .error e2 := by
  intro l
  induction l with
  | nil => intro x hx; simp at hx
  | cons head tail ih =>
    intro x hx he
    rw [mapExcept]
    cases hf : f head with
    | error e => exact ⟨e, by simp⟩
    | ok b =>
      rcases List.mem_cons.mp hx with h1 | h2
      · subst h1
        obtain ⟨e, he2⟩ := he
        rw [hf] at he2
        cases he2
      · obtain ⟨e2, hm⟩ := ih x h2 he
        refine ⟨e2, ?_⟩
        simp [hm]

/-- Non-sentinel lists that fully parse as ints map to exactly the
collected integer list. -/
theorem mapExcept_parse_int_ok :
    ∀ (l : List String) (vals : List Value),
      (∀ v ∈ l, isSentinel v = false) →
      mapExcept (fun x => parse_int x (.intV 0)) l = .ok vals →
      vals = (l.filterMap pyInt).map Value.intV := by
  intro l
  induction l with
  | nil =>
    intro vals _ h
    simp only [mapExcept, Except.ok.injEq] at h
    simp [h.symm]
  | cons head tail ih =>
    intro vals hns h
    rw [mapExcept] at h
    have hhead : isSentinel head = false := hns head (by simp)
    cases hq : pyInt head with
    | none =>
      rw [parse_int, hhead] at h
      simp only [Bool.false_eq_true, if_false, hq] at h
      simp at h
    | some n =>
      rw [parse_int, hhead] at h
      simp only [Bool.false_eq_true, if_false, hq] at h
      simp only [exceptBindOk] at h
      cases hm : mapExcept (fun x => parse_int x (.intV 0)) tail with
      | error e => rw [hm] at h; simp at h
      | ok vs =>
        rw [hm] at h
        simp only [exceptBindOk, exceptPure, Except.ok.injEq] at h
        subst h
        rw [ih vs (fun v hv => hns v (by simp [hv])) hm]
        simp [List.filterMap_cons, hq]

/-- Non-sentinel lists that fully parse as floats map to the rounded
collected decimal list. -/
theorem mapExcept_parse_float_ok :
    ∀ (l : List String) (vals : List ℚ),
      (∀ v ∈ l, isSentinel v = false) →
      mapExcept (fun x => parse_float x 0) l = .ok vals →
      vals = (l.filterMap pyFloat).map round2 := by
  intro l
  induction l with
  | nil =>
    intro vals _ h
    simp only [mapExcept, Except.ok.injEq] at h
    simp [h.symm]
  | cons head tail ih =>
    intro vals hns h
    rw [mapExcept] at h
    have hhead : isSentinel head = false := hns head (by simp)
    cases hq : pyFloat head with
    | none =>
      rw [parse_float, hhead] at h
      simp only [Bool.false_eq_true, if_false, hq] at h
      simp at h
    | some q =>
      rw [parse_float, hhead] at h
      simp only [Bool.false_eq_true, if_false, hq] at h
      simp only [exceptBindOk] at h
      cases hm : mapExcept (fun x => parse_float x 0) tail with
      | error e => rw [hm] at h; simp at h
      | ok vs =>
        rw [hm] at h
        simp only [exceptBindOk, exceptPure, Except.ok.injEq] at h
        subst h
        rw [ih vs (fun v hv => hns v (by simp [hv])) hm]
        simp [List.filterMap_cons, hq]

/-- Every member of a filtered column list is non-sentinel. -/
theorem colSpec_not_sentinel (c : Col) (data : List RawRow) :
    ∀ v ∈ colSpec c data, isSentinel v = false := by
  intro v hv
  rw [colSpec] at hv
  have := List.of_mem_filter hv
  simpa using this

/-- C1: in every row the Row Cleaner emits, the Corrected Total field equals
the two-place rounding of the product of the Quantity and Price Per Unit
values stored in that same cleaned row. -/
theorem claim_C1_corrected_total (row : RawRow) (defults : Defaults)
    (c : CleanedRow) (h : clean_row row defults = .ok c) :
    c.correctedTotal = round2 (c.quantity.toRat * c.pricePerUnit) := by
  unfold clean_row at h
  cases h1 : parse_int row.quantity defults.quantityMedian with
  | error e => rw [h1] at h; simp at h
  | ok quantity =>
    rw [h1] at h
    cases h2 : parse_float row.pricePerUnit defults.pricePerUnitMean with
    | error e => rw [h2] at h; simp at h
    | ok price =>
      rw [h2] at h
      cases h3 : parse_float row.totalSpent 0 with
      | error e => rw [h3] at h; simp at h
      | ok ts =>
        rw [h3] at h
        cases h4 : parse_date row.transactionDate defults.transactionDateMode with
        | error e => rw [h4] at h; simp at h
        | ok td =>
          rw [h4] at h
          simp only [exceptBindOk, exceptPure, Except.ok.injEq] at h
          subst h
          rfl

/-- Witness for C1 at a concrete cleaned row. -/
theorem claim_C1_witness :
    wCleaned.correctedTotal = round2 (wCleaned.quantity.toRat * wCleaned.pricePerUnit) :=
  claim_C1_corrected_total wRow wDefaults wCleaned (by with_unfolding_all decide)

/-- C2: sentinel inputs yield the supplied default (rounded for the decimal
parser), non-sentinel numeric text parses exactly (rounded for the decimal
parser), and non-sentinel unparseable text raises a conversion error. -/
theorem claim_C2_parsers (v : String) (df : ℚ) (di : Value) :
    (isSentinel v = true →
      parse_float v df = .ok (round2 df) ∧ parse_int v di = .ok di) ∧
    (isSentinel v = false →
      (∀ q, pyFloat v = some q → parse_float v df = .ok (round2 q)) ∧
      (∀ n, pyInt v = some n → parse_int v di = .ok (.intV n)) ∧
      (pyFloat v = none → ∃ e, parse_float v df = .error e) ∧
      (pyInt v = none → ∃ e, parse_int v di = .error e)) := by
  constructor
  · intro hs
    constructor <;> simp [parse_float, parse_int, hs]
  · intro hs
    refine ⟨?_, ?_, ?_, ?_⟩
    · intro q hq; simp [parse_float, hs, hq]
    · intro n hn; simp [parse_int, hs, hn]
    · intro hq
      exact ⟨"Cannot convert " ++ v ++ " to float.", by simp [parse_float, hs, hq]⟩
    · intro hn
      exact ⟨"Cannot convert " ++ v ++ " to int.", by simp [parse_int, hs, hn]⟩

/-- Witness for C2: the sentinel branch at a concrete input. -/
theorem claim_C2_witness : parse_int "UNKNOWN" (Value.intV 4) = .ok (.intV 4) :=
  ((claim_C2_parsers "UNKNOWN" 0 (.intV 4)).1 (by decide)).2

/-- A successful clean of a row means its date field passed `parse_date`. -/
theorem clean_row_ok_date (row : RawRow) (defults : Defaults) (c : CleanedRow)
    (h : clean_row row defults = .ok c) :
    parse_date row.transactionDate defults.transactionDateMode = .ok c.transactionDate := by
  unfold clean_row at h
  cases h1 : parse_int row.quantity defults.quantityMedian with
  | error e => rw [h1] at h; simp at h
  | ok quantity =>
    rw [h1] at h
    cases h2 : parse_float row.pricePerUnit defults.pricePerUnitMean with
    | error e => rw [h2] at h; simp at h
    | ok price =>
      rw [h2] at h
      cases h3 : parse_float row.totalSpent 0 with
      | error e => rw [h3] at h; simp at h
      | ok ts =>
        rw [h3] at h
        cases h4 : parse_date row.transactionDate defults.transactionDateMode with
        | error e => rw [h4] at h; simp at h
        | ok td =>
          rw [h4] at h
          simp only [exceptBindOk, exceptPure, Except.ok.injEq] at h
          subst h
          rfl

/-- C8: for non-sentinel text, `parse_date` returns the value unchanged
exactly when it parses under the year-month-day format; otherwise it raises
a conversion error naming the offending value, and a cleaning run over any
dataset containing such a row aborts with an error. -/
theorem claim_C8_parse_date (v d : String) (hs : isSentinel v = false) :
    ((strptimeYmd v).isSome → parse_date v d = .ok v) ∧
    (strptimeYmd v = none →
      parse_date v d = .error ("Cannot parse date from " ++ v ++ ".") ∧
      ∀ (row : RawRow) (defults : Defaults) (raw : List RawRow),
        row.transactionDate = v → row ∈ raw →
        ∃ e, clean_data_imperative raw defults = .error e) := by
  constructor
  · intro hforward
    obtain ⟨ymd, hymd⟩ := Option.isSome_iff_exists.mp hforward
    simp [parse_date, hs, hymd]
  · intro hnone
    constructor
    · simp [parse_date, hs, hnone]
    · intro row defults raw hrow hmem
      have hrowfail : ∃ e, clean_row row defults = .error e := by
        cases hc : clean_row row defults with
        | error e => exact ⟨e, rfl⟩
        | ok c =>
          have hdate := clean_row_ok_date row defults c hc
          rw [hrow] at hdate
          rw [parse_date, hs] at hdate
          simp only [Bool.false_eq_true, if_false, hnone] at hdate
          simp at hdate
      rw [clean_data_eq_mapExcept]
      exact mapExcept_error_of_mem _ raw row hmem hrowfail

/-- Witness for C8 at the spec's own example of an invalid date. -/
theorem claim_C8_witness :
    parse_date "2023-13-45" "1970-01-01"
      = .error "Cannot parse date from 2023-13-45." :=
  ((claim_C8_parse_date "2023-13-45" "1970-01-01" (by decide)).2 (by decide)).1

/-- C10: sentinel date fields take the estimator default with no format
validation, and a malformed mode of the raw date strings therefore reaches a
cleaned row without any error: concretely, with one malformed non-sentinel
date and one sentinel date, the computed default is the malformed string and
cleaning the sentinel-date row succeeds, storing that malformed date. -/
theorem claim_C10_unvalidated_default :
    (∀ v d, isSentinel v = true → parse_date v d = .ok d) ∧
    (compute_column_stats [badDateRow, sentDateRow]).transactionDateMode
      = "not-a-date" ∧
    strptimeYmd "not-a-date" = none ∧
    ∃ c, clean_row sentDateRow (compute_column_stats [badDateRow, sentDateRow]) = .ok c ∧
      c.transactionDate = "not-a-date" := by
  refine ⟨?_, ?_, ?_, ?_⟩
  · intro v d hsent
    simp [parse_date, hsent]
  · with_unfolding_all decide
  · rfl
  · exact ⟨⟨"Coffee", .intV 2, 1, 1, "Cash", "NYC", "not-a-date", 2⟩,
      by with_unfolding_all decide, rfl⟩

/-- Witness for C10: the sentinel branch of `parse_date` at a concrete input. -/
theorem claim_C10_witness : parse_date "ERROR" "not-a-date" = .ok "not-a-date" :=
  claim_C10_unvalidated_default.1 "ERROR" "not-a-date" (by decide)

/-- C6 fails on the code: with collected quantities 2 and 3 the median
default is the float 2.5, which the cleaner stores unchanged as the
Quantity of the sentinel row, so that cleaned Quantity is not an integer
(the spec and the `parse_int` type annotations promise an int). -/
theorem claim_C6_quantity_not_int :
    Except.map (fun l => l.map (fun c => c.quantity))
        (imperative_pipeline [qRow1, qRow2, qRow3])
      = .ok [.intV 2, .intV 3, .floatV (5 / 2)] ∧
    (Value.floatV (5 / 2)).isInt = false := by
  constructor
  · with_unfolding_all decide
  · rfl

/-- C3 fails on the code as stated: the functional variant's default
computation raises on a non-sentinel Quantity that fails conversion. -/
theorem claim_C3_counterexample :
    functional_defaults [badQtyRow] = .error "Cannot convert abc to int." := by
  with_unfolding_all decide

/-- C4 fails on the code as stated: on an all-sentinel dataset the
functional variant's default computation raises instead of falling back. -/
theorem claim_C4_counterexample :
    functional_defaults [sentRow] = .error "StatisticsError: no median for empty data" := by
  with_unfolding_all decide

/-- C5 fails on the code as stated: on an all-sentinel dataset the two
pipelines disagree (the functional one raises, the imperative one emits a
default-imputed row). -/
theorem claim_C5_counterexample :
    functional_pipeline [sentRow] ≠ imperative_pipeline [sentRow] := by
  with_unfolding_all decide

/-- C7 fails on the code as stated: a one-row cleaned dataset makes both
numeric reporters raise an unhandled statistics error on the variance. -/
theorem claim_C7_counterexample :
    imperative_pipeline [wRow] = .ok [wCleaned] ∧
    print_numeric_analysis_imperative [wCleaned.quantity.toRat]
      = .error "StatisticsError: variance requires at least two data points" ∧
    print_numeric_analysis [wCleaned.quantity.toRat]
      = .error "StatisticsError: variance requires at least two data points" := by
  refine ⟨?_, ?_, ?_⟩ <;> with_unfolding_all decide

/-- C9: a successful cleaning run emits exactly one cleaned row per raw
row, dropping and merging nothing and preserving order, and the functional
map form agrees with the imperative loop on the same output. -/
theorem claim_C9_one_to_one (raw : List RawRow) (defults : Defaults)
    (cleaned : List CleanedRow)
    (h : clean_data_imperative raw defults = .ok cleaned) :
    mapExcept (fun row => clean_row row defults) raw = .ok cleaned ∧
    cleaned.length = raw.length ∧
    ∀ (i : Nat) (hi : i < raw.length) (hi2 : i < cleaned.length),
      clean_row (raw.get ⟨i, hi⟩) defults = .ok (cleaned.get ⟨i, hi2⟩) := by
  rw [clean_data_eq_mapExcept] at h
  obtain ⟨hlen, hget⟩ := mapExcept_ok_spec _ raw cleaned h
  exact ⟨h, hlen, hget⟩

/-- Witness for C9 on a one-row dataset. -/
theorem claim_C9_witness : ([wCleaned] : List CleanedRow).length = ([wRow] : List RawRow).length :=
  (claim_C9_one_to_one [wRow] wDefaults [wCleaned] (by with_unfolding_all decide)).2.1

/-- C4 amended: the imperative estimator falls back to 0, 0.0, UNKNOWN and
1970-01-01 when a column collects no values; the functional variant raises
instead (see its counterexample). -/
theorem claim_C4_amended (data : List RawRow) :
    ((collectColumns data).quantities = [] →
      (compute_column_stats data).quantityMedian = .intV 0) ∧
    ((collectColumns data).pricesPerUnit = [] →
      (compute_column_stats data).pricePerUnitMean = 0) ∧
    ((collectColumns data).items = [] →
      (compute_column_stats data).itemMode = "UNKNOWN") ∧
    ((collectColumns data).paymentMethods = [] →
      (compute_column_stats data).paymentMethodMode = "UNKNOWN") ∧
    ((collectColumns data).locations = [] →
      (compute_column_stats data).locationMode = "UNKNOWN") ∧
    ((collectColumns data).transactionDates = [] →
      (compute_column_stats data).transactionDateMode = "1970-01-01") := by
  refine ⟨?_, ?_, ?_, ?_, ?_, ?_⟩ <;>
    · intro h
      simp [compute_column_stats, h]

/-- Witness for C4 on an all-sentinel dataset. -/
theorem claim_C4_witness : (compute_column_stats [sentRow]).quantityMedian = .intV 0 :=
  (claim_C4_amended [sentRow]).1 (by with_unfolding_all decide)

/-- The mode fold keeps a value once it holds one. -/
theorem pyModeFold_some {α : Type} [DecidableEq α] (full : List α) :
    ∀ (l : List α) (m : α),
      ∃ m2, l.foldl
        (fun acc v =>
          match acc with
          | none => some v
          | some m3 => if full.count m3 < full.count v then some v else acc)
        (some m) = some m2 := by
  intro l
  induction l with
  | nil => intro m; exact ⟨m, rfl⟩
  | cons head tail ih =>
    intro m
    rw [List.foldl_cons]
    by_cases hcount : full.count m < full.count head
    · obtain ⟨m2, hm2⟩ := ih head
      exact ⟨m2, by simpa [hcount] using hm2⟩
    · obtain ⟨m2, hm2⟩ := ih m
      exact ⟨m2, by simpa [hcount] using hm2⟩

/-- The mode of a nonempty list exists (no StatisticsError is raised). -/
theorem pyMode_nonempty {α : Type} [DecidableEq α] (l : List α) (h : l ≠ []) :
    ∃ m, pyMode l = some m := by
  cases l with
  | nil => exact absurd rfl h
  | cons head tail =>
    rw [pyMode, List.foldl_cons]
    exact pyModeFold_some (head :: tail) tail head

/-- C7 amended: the categorical reporters never fail (a mode gap is reported
as a message, and a tie yields the first-encountered mode rather than
"Multiple found"); the imperative numeric reporter reports its no-data
message only for the empty column, and the undefined variance of a single
value escapes both numeric reporters as an unhandled statistics error. -/
theorem claim_C7_amended (values : List ℚ) (vs : List String)
    (h1 : values.length = 1) (h2 : vs ≠ []) :
    (∃ e, print_numeric_analysis_imperative values = .error e) ∧
    print_numeric_analysis_imperative [] = .ok .noData ∧
    (∃ m, print_categorical_analysis_imperative vs = .modeIs m) ∧
    print_categorical_analysis [] = .multipleFound ∧
    print_categorical_analysis_imperative [] = .noData ∧
    print_categorical_analysis ["Cash", "Card"] = .modeIs "Cash" := by
  refine ⟨?_, rfl, ?_, rfl, rfl, by decide⟩
  · match values, h1 with
    | [x], _ =>
      refine ⟨"StatisticsError: variance requires at least two data points", ?_⟩
      simp [print_numeric_analysis_imperative, pyMeanQ, pyMedianQ, pyVarianceQ,
        exceptOfOption]
  · obtain ⟨m, hm⟩ := pyMode_nonempty vs h2
    refine ⟨m, ?_⟩
    rw [print_categorical_analysis_imperative]
    simp [List.isEmpty_iff, h2, hm]

/-- Witness for C7 at concrete single-value and nonempty inputs. -/
theorem claim_C7_witness :
    print_numeric_analysis_imperative ([] : List ℚ) = .ok .noData :=
  (claim_C7_amended [5] ["Cash"] rfl (by decide)).2.1

/-- Replacing a non-sentinel unparseable Quantity by a sentinel leaves every
collected list unchanged: the estimator already skipped it silently. -/
theorem collect_skip_quantity (data1 data2 : List RawRow) (row : RawRow)
    (hs : isSentinel row.quantity = false) (hq : pyInt row.quantity = none) :
    collectColumns (data1 ++ row :: data2)
      = collectColumns (data1 ++ row.setQuantity "ERROR" :: data2) := by
  have hERR : isSentinel "ERROR" = true := rfl
  rw [collectColumns_eq, collectColumns_eq]
  simp [quantitiesSpec, pricesSpec, colSpec, RawRow.setQuantity, RawRow.get,
    List.filter_append, List.filterMap_append, hs, hq, hERR]

/-- Replacing a non-sentinel unparseable Price Per Unit by a sentinel leaves
every collected list unchanged. -/
theorem collect_skip_price (data1 data2 : List RawRow) (row : RawRow)
    (hs : isSentinel row.pricePerUnit = false) (hq : pyFloat row.pricePerUnit = none) :
    collectColumns (data1 ++ row :: data2)
      = collectColumns (data1 ++ row.setPricePerUnit "ERROR" :: data2) := by
  have hERR : isSentinel "ERROR" = true := rfl
  rw [collectColumns_eq, collectColumns_eq]
  simp [quantitiesSpec, pricesSpec, colSpec, RawRow.setPricePerUnit, RawRow.get,
    List.filter_append, List.filterMap_append, hs, hq, hERR]

/-- C3 amended: the imperative estimator silently excludes a non-sentinel
Quantity or Price Per Unit value that fails numeric conversion (its result
is the same as if the value had been a sentinel), while the functional
variant's default computation raises on such a Quantity value. -/
theorem claim_C3_amended (data1 data2 : List RawRow) (row : RawRow) :
    (isSentinel row.quantity = false → pyInt row.quantity = none →
      compute_column_stats (data1 ++ row :: data2)
        = compute_column_stats (data1 ++ row.setQuantity "ERROR" :: data2) ∧
      ∃ e, functional_defaults (data1 ++ row :: data2) = .error e) ∧
    (isSentinel row.pricePerUnit = false → pyFloat row.pricePerUnit = none →
      compute_column_stats (data1 ++ row :: data2)
        = compute_column_stats (data1 ++ row.setPricePerUnit "ERROR" :: data2)) := by
  constructor
  · intro hs hq
    constructor
    · unfold compute_column_stats
      rw [collect_skip_quantity data1 data2 row hs hq]
    · have hmem : row.quantity ∈ get_column (data1 ++ row :: data2) .quantity [] := by
        rw [get_column_eq]
        simp only [List.nil_append, colSpec]
        refine List.mem_filter.2 ⟨?_, by simp [hs]⟩
        exact List.mem_map.2 ⟨row, by simp, rfl⟩
      have hfail : ∃ e, parse_int row.quantity (.intV 0) = .error e :=
        ⟨"Cannot convert " ++ row.quantity ++ " to int.", by simp [parse_int, hs, hq]⟩
      obtain ⟨e2, he2⟩ := mapExcept_error_of_mem (fun x => parse_int x (.intV 0)) _ _ hmem hfail
      refine ⟨e2, ?_⟩
      rw [functional_defaults, he2]
      rfl
  · intro hs hq
    unfold compute_column_stats
    rw [collect_skip_price data1 data2 row hs hq]

/-- Witness for C3 at a concrete unparseable Quantity. -/
theorem claim_C3_witness :
    compute_column_stats [badQtyRow]
      = compute_column_stats [badQtyRow.setQuantity "ERROR"] :=
  ((claim_C3_amended [] [] badQtyRow).1 (by decide) (by decide)).1

/-- A list of decimals already rounded to two places is fixed by rounding. -/
theorem map_round2_id (l : List ℚ) (h : ∀ p ∈ l, round2 p = p) :
    l.map round2 = l := by
  induction l with
  | nil => rfl
  | cons head tail ih =>
    rw [List.map_cons, h head (by simp), ih (fun p hp => h p (by simp [hp]))]

/-- Inversion of a successful functional default computation into its
individual statistics. -/
theorem functional_defaults_ok_inv (raw : List RawRow) (d : Defaults)
    (hd : functional_defaults raw = .ok d) :
    ∃ qVals pVals,
      mapExcept (fun x => parse_int x (.intV 0)) (colSpec .quantity raw) = .ok qVals ∧
      pyMedian qVals = some d.quantityMedian ∧
      mapExcept (fun x => parse_float x 0) (colSpec .pricePerUnit raw) = .ok pVals ∧
      pyMeanQ pVals = some d.pricePerUnitMean ∧
      pyMode (colSpec .item raw) = some d.itemMode ∧
      pyMode (colSpec .paymentMethod raw) = some d.paymentMethodMode ∧
      pyMode (colSpec .location raw) = some d.locationMode ∧
      pyMode (colSpec .transactionDate raw) = some d.transactionDateMode := by
  rw [functional_defaults] at hd
  rw [get_column_eq, get_column_eq, get_column_eq, get_column_eq, get_column_eq,
    get_column_eq] at hd
  simp only [List.nil_append] at hd
  cases h1 : mapExcept (fun x => parse_int x (.intV 0)) (colSpec .quantity raw) with
  | error e => rw [h1] at hd; simp at hd
  | ok qVals =>
  rw [h1] at hd
  simp only [exceptBindOk] at hd
  cases h2 : pyMedian qVals with
  | none => rw [h2] at hd; simp [exceptOfOption] at hd
  | some qm =>
  rw [h2] at hd
  simp only [exceptOfOption, exceptBindOk] at hd
  cases h3 : mapExcept (fun x => parse_float x 0) (colSpec .pricePerUnit raw) with
  | error e => rw [h3] at hd; simp at hd
  | ok pVals =>
  rw [h3] at hd
  simp only [exceptBindOk] at hd
  cases h4 : pyMeanQ pVals with
  | none => rw [h4] at hd; simp [exceptOfOption] at hd
  | some pm =>
  rw [h4] at hd
  simp only [exceptOfOption, exceptBindOk] at hd
  cases h5 : pyMode (colSpec .item raw) with
  | none => rw [h5] at hd; simp [exceptOfOption] at hd
  | some im =>
  rw [h5] at hd
  simp only [exceptOfOption, exceptBindOk] at hd
  cases h6 : pyMode (colSpec .paymentMethod raw) with
  | none => rw [h6] at hd; simp [exceptOfOption] at hd
  | some pmm =>
  rw [h6] at hd
  simp only [exceptOfOption, exceptBindOk] at hd
  cases h7 : pyMode (colSpec .location raw) with
  | none => rw [h7] at hd; simp [exceptOfOption] at hd
  | some lm =>
  rw [h7] at hd
  simp only [exceptOfOption, exceptBindOk] at hd
  cases h8 : pyMode (colSpec .transactionDate raw) with
  | none => rw [h8] at hd; simp [exceptOfOption] at hd
  | some tm =>
  rw [h8] at hd
  simp only [exceptOfOption, exceptBindOk, exceptPure, Except.ok.injEq] at hd
  subst hd
  exact ⟨qVals, pVals, rfl, h2, rfl, h4, rfl, rfl, rfl, rfl⟩

/-- C5 amended: whenever the functional pipeline completes without raising
and every collected Price Per Unit value is already rounded to two places,
the imperative pipeline produces the identical cleaned row sequence.  (The
unconditional claim fails: see the counterexample; the rounding condition
is needed because the functional variant rounds each collected price before
taking the mean while the imperative variant does not.) -/
theorem claim_C5_refinement (raw : List RawRow) (out : List CleanedRow)
    (h : functional_pipeline raw = .ok out)
    (hp : ∀ p ∈ pricesSpec raw, round2 p = p) :
    imperative_pipeline raw = .ok out := by
  rw [functional_pipeline] at h
  cases hd : functional_defaults raw with
  | error e => rw [hd] at h; simp at h
  | ok d =>
  rw [hd] at h
  simp only [exceptBindOk] at h
  obtain ⟨qVals, pVals, h1, h2, h3, h4, h5, h6, h7, h8⟩ :=
    functional_defaults_ok_inv raw d hd
  have hqv : qVals = (quantitiesSpec raw).map Value.intV :=
    mapExcept_parse_int_ok (colSpec .quantity raw) qVals
      (colSpec_not_sentinel .quantity raw) h1
  have hpv : pVals = pricesSpec raw := by
    have hpv0 := mapExcept_parse_float_ok (colSpec .pricePerUnit raw) pVals
      (colSpec_not_sentinel .pricePerUnit raw) h3
    rw [hpv0]
    exact map_round2_id (pricesSpec raw) hp
  have hqne : (quantitiesSpec raw).isEmpty = false := by
    cases hq0 : quantitiesSpec raw with
    | nil => rw [hq0] at hqv; rw [hqv] at h2; simp [pyMedian] at h2
    | cons a t => rfl
  have hpne : (pricesSpec raw).isEmpty = false := by
    cases hp0 : pricesSpec raw with
    | nil => rw [hp0] at hpv; rw [hpv] at h4; simp [pyMeanQ] at h4
    | cons a t => rfl
  have hine : (colSpec .item raw).isEmpty = false := by
    cases hi0 : colSpec .item raw with
    | nil => rw [hi0] at h5; simp [pyMode] at h5
    | cons a t => rfl
  have hpmne : (colSpec .paymentMethod raw).isEmpty = false := by
    cases hpm0 : colSpec .paymentMethod raw with
    | nil => rw [hpm0] at h6; simp [pyMode] at h6
    | cons a t => rfl
  have hlne : (colSpec .location raw).isEmpty = false := by
    cases hl0 : colSpec .location raw with
    | nil => rw [hl0] at h7; simp [pyMode] at h7
    | cons a t => rfl
  have htne : (colSpec .transactionDate raw).isEmpty = false := by
    cases ht0 : colSpec .transactionDate raw with
    | nil => rw [ht0] at h8; simp [pyMode] at h8
    | cons a t => rfl
  have hcs : compute_column_stats raw = d := by
    obtain ⟨dq, dp, di2, dpm, dl, dt⟩ := d
    simp only [compute_column_stats, collectColumns_eq]
    simp only [Defaults.mk.injEq]
    refine ⟨?_, ?_, ?_, ?_, ?_, ?_⟩
    · simp only [hqne, Bool.false_eq_true, if_false]
      rw [← hqv, h2]
      rfl
    · simp only [hpne, Bool.false_eq_true, if_false]
      rw [← hpv, h4]
      rfl
    · simp only [hine, Bool.false_eq_true, if_false]
      rw [h5]
      rfl
    · simp only [hpmne, Bool.false_eq_true, if_false]
      rw [h6]
      rfl
    · simp only [hlne, Bool.false_eq_true, if_false]
      rw [h7]
      rfl
    · simp only [htne, Bool.false_eq_true, if_false]
      rw [h8]
      rfl
  rw [imperative_pipeline, clean_data_eq_mapExcept, hcs]
  exact h

/-- Witness for C5 on a one-row dataset with a two-place price. -/
theorem claim_C5_witness : imperative_pipeline [wRow] = .ok [wCleaned] :=
  claim_C5_refinement [wRow] [wCleaned] (by with_unfolding_all decide)
    (by with_unfolding_all decide)
